import Mathlib

/-!
Verification of the Gram-Analyzer synchronization engine.

This file gives a shallow embedding of the analytics, auth-challenge,
rate-limiting and sync-orchestration code of the repository
(api/app/analytics_service.py, api/app/instagram_service.py,
api/app/rate_limiter.py, api/app/routes/analytics.py) and proves
properties of that embedding.

Modelling conventions:
- Python datetimes are modelled as integer timestamps (seconds); the
  claims under study do not depend on sub-second granularity.
- Python sets are modelled as deduplicated id lists; Python leaves set
  iteration order unspecified, and no property proved here depends on
  the order chosen by the model.
- Python dict comprehensions with last-write-wins keys are modelled by
  a lookup returning the last element carrying the key.
- Fallible external operations (network, storage) are modelled by
  oracle records describing the outcome of each call site, so the
  control flow of every exception path is explicit.
-/

/-- Relationship entity, from the InstagramUser pydantic model in
api/app/models.py. Identity is ig_id. -/
structure InstagramUser where
  ig_id : String
  username : String
  full_name : Option String := none
  profile_pic_url : Option String := none
  is_verified : Bool := false
  is_private : Bool := false
  deriving Repr, DecidableEq

/-- Case-insensitive sort key, modelling the Python key function
lambda x: x.username.lower(). Python lowercases full Unicode while
Char.toLower is ASCII; they agree on ASCII usernames, and no property
proved here depends on the difference. The key is the code-point
sequence of the lowercased username. -/
def usernameKey (u : InstagramUser) : List Char :=
  u.username.data.map Char.toLower

/-- Lexicographic comparison of code-point sequences, the order Python
uses on str values. -/
def lexLe : List Char → List Char → Bool
  | [], _ => true
  | _ :: _, [] => false
  | a :: as, b :: bs => if a = b then lexLe as bs else decide (a < b)

/-- Boolean key comparison used by the stable sort model. -/
def userLe (a b : InstagramUser) : Bool :=
  lexLe (usernameKey a) (usernameKey b)

/-- Stable insertion into a sorted list: an element is placed before the
first element whose key is not below it, so equal keys keep the incoming
(earlier) element first, matching the stability of Python's sorted. -/
def insertSorted (x : InstagramUser) : List InstagramUser → List InstagramUser
  | [] => [x]
  | y :: ys => if userLe x y then x :: y :: ys else y :: insertSorted x ys

/-- Model of sorted(l, key=lambda x: x.username.lower()): a stable sort
by case-insensitive username (Python's sorted is stable). -/
def sortByUsername (l : List InstagramUser) : List InstagramUser :=
  l.foldr insertSorted []

/-- Model of the set comprehension building an id-set from a user list
(analytics_service.py line 24). Python set iteration order is
unspecified; the model keeps one occurrence per id. -/
def idSet (l : List InstagramUser) : List String :=
  (l.map (fun u => u.ig_id)).dedup

/-- Lookup in the dict comprehension mapping each ig_id to its user
(analytics_service.py line 26): later entries overwrite earlier ones,
so the value stored under k is the last element of l whose id is k. -/
def mapLookup (l : List InstagramUser) (k : String) : Option InstagramUser :=
  (l.filter (fun u => u.ig_id == k)).getLast?

/-- Set difference on id lists (analytics_service.py line 30). -/
def setDiff (a b : List String) : List String :=
  a.filter (fun x => !(b.contains x))

/-- Set intersection on id lists (analytics_service.py line 38). -/
def setInter (a b : List String) : List String :=
  a.filter (fun x => b.contains x)

/-- Model of the comprehension taking map entries for each id of an
id-set (analytics_service.py lines 31, 35, 39, 51, 55). In the source
every id of the id-set is a key of the map, so the lookup never fails;
filterMap makes the model total. -/
def gather (l : List InstagramUser) (ids : List String) : List InstagramUser :=
  ids.filterMap (fun k => mapLookup l k)

/-- Overview counters, from AnalyticsOverview in api/app/models.py.
The last_sync wall-clock stamp is ambient time, independent of the
inputs, and is left out of the pure model. -/
structure AnalyticsOverview where
  total_followers : Nat
  total_following : Nat
  not_following_back : Nat
  not_followed_back : Nat
  mutual_friends : Nat
  new_followers : Nat
  lost_followers : Nat
  deriving Repr, DecidableEq

/-- Full analytics report, from DetailedAnalytics in api/app/models.py. -/
structure DetailedAnalytics where
  overview : AnalyticsOverview
  followers : List InstagramUser
  following : List InstagramUser
  not_following_back : List InstagramUser
  not_followed_back : List InstagramUser
  mutual_friends : List InstagramUser
  new_followers : List InstagramUser
  lost_followers : List InstagramUser
  deriving Repr, DecidableEq

/-- Embedding of AnalyticsService.compute_analytics
(api/app/analytics_service.py lines 14 to 78). The truthiness test
if previous_followers: treats both None and the empty list as absent.
All report lists except new and lost followers are sorted by
case-insensitive username before being returned. -/
def compute_analytics (followers following : List InstagramUser)
    (previous_followers : Option (List InstagramUser)) : DetailedAnalytics :=
  let follower_ids := idSet followers
  let following_ids := idSet following
  let not_following_back := gather following (setDiff following_ids follower_ids)
  let not_followed_back := gather followers (setDiff follower_ids following_ids)
  let mutual_friends := gather followers (setInter follower_ids following_ids)
  let newlost : List InstagramUser × List InstagramUser :=
    match previous_followers with
    | none => ([], [])
    | some prev =>
      if prev.isEmpty then ([], [])
      else
        (gather followers (setDiff follower_ids (idSet prev)),
         gather prev (setDiff (idSet prev) follower_ids))
  { overview :=
      { total_followers := followers.length
        total_following := following.length
        not_following_back := not_following_back.length
        not_followed_back := not_followed_back.length
        mutual_friends := mutual_friends.length
        new_followers := newlost.1.length
        lost_followers := newlost.2.length }
    followers := sortByUsername followers
    following := sortByUsername following
    not_following_back := sortByUsername not_following_back
    not_followed_back := sortByUsername not_followed_back
    mutual_friends := sortByUsername mutual_friends
    new_followers := newlost.1
    lost_followers := newlost.2 }

/-- Challenge kinds stored in the pending_challenges table
(instagram_service.py): the source tags entries with the strings 2fa
and challenge. -/
inductive ChallengeKind where
  | twoFactor
  | verificationChallenge
  deriving Repr, DecidableEq

/-- Entry of the pending_challenges dict (instagram_service.py lines
205 to 231). The opaque client handle and stored credentials do not
affect the control flow modelled here; the kind and creation time do. -/
structure AuthChallenge where
  kind : ChallengeKind
  created_at : Nat
  deriving Repr, DecidableEq

/-- CHALLENGE_EXPIRY_MINUTES (instagram_service.py line 32). -/
def CHALLENGE_EXPIRY_MINUTES : Nat := 10

/-- First-match lookup in the challenge table; session ids are uuid4
values, one entry per id. -/
def lookupChallenge (table : List (String × AuthChallenge)) (k : String) :
    Option AuthChallenge :=
  (table.find? (fun p => p.1 == k)).map (fun p => p.2)

/-- Model of del pending_challenges[session_id]. -/
def removeChallenge (table : List (String × AuthChallenge)) (k : String) :
    List (String × AuthChallenge) :=
  table.filter (fun p => !(p.1 == k))

/-- Embedding of cleanup_expired_challenges (instagram_service.py lines
35 to 46): drops entries whose age exceeds the expiry threshold. Time
is in seconds. Only login calls this; the completion endpoints do not. -/
def cleanup_expired_challenges (now : Nat)
    (table : List (String × AuthChallenge)) : List (String × AuthChallenge) :=
  table.filter
    (fun p => !(decide (now - p.2.created_at > CHALLENGE_EXPIRY_MINUTES * 60)))

/-- Result dictionaries returned by the completion endpoints of
instagram_service.py, abstracted to their distinguishable shapes:
sessionExpired is success False with error Session expired,
invalidChallengeType is success False with error Invalid challenge
type, ok is the success True payload, failed covers the remaining
success False messages. -/
inductive CompletionResult where
  | sessionExpired
  | invalidChallengeType
  | ok
  | failed
  deriving Repr, DecidableEq

/-- Outcome of the remote challenge_resolve call inside
complete_challenge: it can return truthy, return falsy, or raise. -/
inductive ResolveOutcome where
  | ok
  | falsy
  | raised
  deriving Repr, DecidableEq

/-- Embedding of InstagramService.complete_2fa (instagram_service.py
lines 273 to 301). loginOk is the oracle for the remote login call
with the verification code; the try body catches every exception, so
the embedding is total. Returns the result and the updated table. -/
def complete_2fa (table : List (String × AuthChallenge)) (session_id : String)
    (loginOk : Bool) : CompletionResult × List (String × AuthChallenge) :=
  match lookupChallenge table session_id with
  | none => (.sessionExpired, table)
  | some cd =>
    if cd.kind ≠ .twoFactor then (.invalidChallengeType, table)
    else if loginOk then (.ok, removeChallenge table session_id)
    else (.failed, table)

/-- Embedding of InstagramService.complete_challenge
(instagram_service.py lines 303 to 336): same shape, testing the
challenge kind, with a three-way oracle for challenge_resolve. -/
def complete_challenge (table : List (String × AuthChallenge))
    (session_id : String) (resolve : ResolveOutcome) :
    CompletionResult × List (String × AuthChallenge) :=
  match lookupChallenge table session_id with
  | none => (.sessionExpired, table)
  | some cd =>
    if cd.kind ≠ .verificationChallenge then (.invalidChallengeType, table)
    else
      match resolve with
      | .ok => (.ok, removeChallenge table session_id)
      | .falsy => (.failed, table)
      | .raised => (.failed, table)

/-- Outcome of RateLimiter.check_rate_limit: allowed, rejected with a
Retry-After value, or the IndexError of reading element zero of an
empty retained list (reachable only when max_requests is zero). -/
inductive RateLimitOutcome where
  | allowed
  | rejected (retry_after : Int)
  | indexError
  deriving Repr, DecidableEq

/-- Embedding of RateLimiter.check_rate_limit (rate_limiter.py lines 16
to 49) for a single identifier: the state is that identifier's list of
(timestamp, count) pairs in insertion order, timestamps in integer
seconds. The pruned list is written back before the limit test, so the
returned state on rejection is the pruned list without the new
request. -/
def check_rate_limit (entries : List (Int × Nat)) (now : Int)
    (max_requests window_seconds : Nat) :
    RateLimitOutcome × List (Int × Nat) :=
  let window_start := now - (window_seconds : Int)
  let kept := entries.filter (fun e => decide (window_start < e.1))
  let total := (kept.map (fun e => e.2)).sum
  if total ≥ max_requests then
    match kept with
    | [] => (.indexError, kept)
    | e :: _ => (.rejected (e.1 + (window_seconds : Int) - now), kept)
  else (.allowed, kept ++ [(now, 1)])

/-- Prune rule as the claim words it, for comparison with the source
embedding: remove only timestamps strictly older than now minus
window_seconds, keeping one exactly at the boundary. -/
def keptPerClaim (entries : List (Int × Nat)) (now : Int)
    (window_seconds : Nat) : List (Int × Nat) :=
  entries.filter (fun e => decide (now - (window_seconds : Int) ≤ e.1))

/-- Embedding of can_sync (routes/analytics.py lines 33 to 53). Times
are integer seconds and cooldown_hours is settings.sync_cooldown_hours;
on integral timestamps the int() truncation of total_seconds is exact. -/
def can_sync (last_sync : Option Int) (now : Int) (cooldown_hours : Nat) :
    Bool × Option Int :=
  match last_sync with
  | none => (true, none)
  | some ls =>
    let next_sync_time := ls + (cooldown_hours : Int) * 3600
    if next_sync_time ≤ now then (true, none)
    else (false, some (next_sync_time - now))

/-- SyncStatus record (api/app/models.py), the per-account entry of
the sync_status registry in routes/analytics.py. -/
structure SyncStatus where
  is_syncing : Bool
  progress : Nat
  current_task : String
  last_sync : Option Int := none
  deriving Repr, DecidableEq

/-- First-match lookup in the status registry dict. -/
def lookupStatus (reg : List (String × SyncStatus)) (k : String) :
    Option SyncStatus :=
  (reg.find? (fun p => p.1 == k)).map (fun p => p.2)

/-- Dict assignment sync_status[key] = v: replaces the existing entry
or appends a new one. -/
def setStatus (reg : List (String × SyncStatus)) (k : String) (v : SyncStatus) :
    List (String × SyncStatus) :=
  if (reg.find? (fun p => p.1 == k)).isSome
  then reg.map (fun p => if p.1 == k then (k, v) else p)
  else reg ++ [(k, v)]

/-- Responses of the sync endpoint (routes/analytics.py lines 192 to
250): cooldownActive and alreadyInProgress are the success False
responses (the latter carrying the existing status record); started is
the success True response. -/
inductive SyncResponse where
  | cooldownActive (seconds_remaining : Int)
  | alreadyInProgress (status : SyncStatus)
  | started (status : SyncStatus)
  deriving Repr, DecidableEq

/-- Embedding of the guard section of sync_analytics
(routes/analytics.py lines 192 to 250). Returns the response, the
updated registry, and whether a background task was spawned. -/
def sync_analytics (reg : List (String × SyncStatus)) (status_key : String)
    (force : Bool) (last_sync : Option Int) (now : Int) (cooldown_hours : Nat) :
    SyncResponse × List (String × SyncStatus) × Bool :=
  let c := can_sync last_sync now cooldown_hours
  if force = false ∧ c.1 = false then
    (.cooldownActive (c.2.getD 0), reg, false)
  else
    match lookupStatus reg status_key with
    | some st =>
      if st.is_syncing then (.alreadyInProgress st, reg, false)
      else
        let newSt : SyncStatus :=
          { is_syncing := true, progress := 0, current_task := "Starting sync..." }
        (.started newSt, setStatus reg status_key newSt, true)
    | none =>
      let newSt : SyncStatus :=
        { is_syncing := true, progress := 0, current_task := "Starting sync..." }
      (.started newSt, setStatus reg status_key newSt, true)

/-- Outcome oracle for one remote list fetch inside perform_sync. -/
inductive FetchResult where
  | ok (users : List InstagramUser)
  | rateLimited (msg : String)
  | otherError
  deriving Repr, DecidableEq

/-- Oracle fixing the outcome of every external call made by one run
of perform_sync (routes/analytics.py lines 271 to 435), in call order:
decrypt_session, the two load_session calls, validate_session,
get_previous_followers (with its returned value), the two fetches,
save_snapshot, cache_analytics, the last_sync database update, and the
user-row fetch feeding the image-cache task. A false field means that
call raises. -/
structure SyncEnv where
  decrypt_ok : Bool
  load1_ok : Bool
  load2_ok : Bool
  validate_ok : Bool
  prev_ok : Bool
  prev : Option (List InstagramUser)
  fetch_followers : FetchResult
  fetch_following : FetchResult
  save_ok : Bool
  cache_ok : Bool
  update_ok : Bool
  userrow_ok : Bool
  deriving Repr, DecidableEq

/-- Persistence performed by one perform_sync run: the snapshot written
by save_snapshot, the analytics written by cache_analytics, and whether
the account's last_sync_at column was updated. -/
structure SyncEffects where
  saved_snapshot : Option (List InstagramUser × List InstagramUser) := none
  cached_analytics : Option DetailedAnalytics := none
  last_sync_updated : Bool := false
  deriving Repr, DecidableEq

/-- The final except handler of perform_sync (routes/analytics.py lines
431 to 435); the message interpolates the exception text, which the
oracle model keeps abstract. -/
def syncUnexpected (st : SyncStatus) : SyncStatus :=
  { st with is_syncing := false, current_task := "Error: unexpected" }

/-- Tail of perform_sync after both fetches (routes/analytics.py lines
379 to 435): compute analytics, persist the snapshot, persist the
cache, update last_sync_at, mark completion, then fetch the user row
for the fire-and-forget image-cache task. -/
def syncTail (env : SyncEnv) (st : SyncStatus) (now : Int)
    (followers following : List InstagramUser) : SyncStatus × SyncEffects :=
  let st := { st with current_task := "Computing analytics...", progress := 85 }
  let analytics := compute_analytics followers following env.prev
  let st := { st with current_task := "Saving data...", progress := 90 }
  if env.save_ok = false then (syncUnexpected st, {}) else
  let eff : SyncEffects := { saved_snapshot := some (followers, following) }
  if env.cache_ok = false then (syncUnexpected st, eff) else
  let eff := { eff with cached_analytics := some analytics }
  if env.update_ok = false then (syncUnexpected st, eff) else
  let eff := { eff with last_sync_updated := true }
  let st :=
    { st with
      is_syncing := false
      progress := 100
      current_task := "Sync complete!"
      last_sync := some now }
  if env.userrow_ok = false then (syncUnexpected st, eff) else
  (st, eff)

/-- Following-fetch step of perform_sync (routes/analytics.py lines 355
to 377): a rate-limit error aborts the run, any other error degrades to
an empty following list. The interpolated counts of the transient
progress labels are elided; no claim inspects them. -/
def syncFollowingStep (env : SyncEnv) (st : SyncStatus) (now : Int)
    (followers : List InstagramUser) : SyncStatus × SyncEffects :=
  let st := { st with current_task := "Fetching following...", progress := 50 }
  match env.fetch_following with
  | .rateLimited msg => ({ st with is_syncing := false, current_task := msg }, {})
  | .ok l =>
    syncTail env { st with current_task := "Found following", progress := 75 }
      now followers l
  | .otherError => syncTail env st now followers []

/-- Embedding of perform_sync (routes/analytics.py lines 271 to 435).
The env oracle fixes the outcome of every external call, so each branch
of the source, including the final except handler, is represented. The
mid-fetch progress-callback updates are transient and overwritten on
every return path, so they are not modelled separately. -/
def perform_sync (env : SyncEnv) (st0 : SyncStatus) (now : Int) :
    SyncStatus × SyncEffects :=
  if env.decrypt_ok = false then (syncUnexpected st0, {}) else
  let st := { st0 with current_task := "Restoring session...", progress := 5 }
  if env.load1_ok = false then
    ({ st with
        is_syncing := false
        current_task := "Session expired. Please login again." }, {}) else
  if env.load2_ok = false then
    ({ st with
        is_syncing := false
        current_task := "Session expired.  Please login again." }, {}) else
  let st := { st with current_task := "Validating session...", progress := 8 }
  if env.validate_ok = false then
    ({ st with
        is_syncing := false
        current_task := "Session invalid. Please login again." }, {}) else
  let st := { st with current_task := "Loading previous data...", progress := 10 }
  if env.prev_ok = false then (syncUnexpected st, {}) else
  let st := { st with current_task := "Fetching followers...", progress := 20 }
  match env.fetch_followers with
  | .rateLimited msg => ({ st with is_syncing := false, current_task := msg }, {})
  | .ok l =>
    syncFollowingStep env
      { st with current_task := "Found followers", progress := 45 } now l
  | .otherError => syncFollowingStep env st now []

/-- Row of the followers_snapshot table (api/app/database.py); the
denormalized user columns are carried as the user payload. -/
structure FollowerRow where
  user_id : Nat
  snapshot_date : Nat
  follower : InstagramUser
  deriving Repr, DecidableEq

/-- Row of the following_snapshot table (api/app/database.py). -/
structure FollowingRow where
  user_id : Nat
  snapshot_date : Nat
  following : InstagramUser
  deriving Repr, DecidableEq

/-- The two snapshot tables. -/
structure SnapshotDB where
  follower_rows : List FollowerRow
  following_rows : List FollowingRow
  deriving Repr, DecidableEq

/-- Midnight truncation snapshot_date.replace(hour=0, minute=0,
second=0, microsecond=0) on integer-second timestamps. -/
def dayStart (t : Nat) : Nat :=
  t / 86400 * 86400

/-- Embedding of AnalyticsService.save_snapshot (analytics_service.py
lines 80 to 133): first deletes this user's rows dated at or after the
start of the current day, then inserts one row per current follower and
per current following, all stamped with the capture time. -/
def save_snapshot (db : SnapshotDB) (user_id : Nat) (now : Nat)
    (followers following : List InstagramUser) : SnapshotDB :=
  let today_start := dayStart now
  { follower_rows :=
      db.follower_rows.filter
        (fun r => !(r.user_id == user_id && decide (today_start ≤ r.snapshot_date)))
      ++ followers.map
        (fun u => { user_id := user_id, snapshot_date := now, follower := u })
    following_rows :=
      db.following_rows.filter
        (fun r => !(r.user_id == user_id && decide (today_start ≤ r.snapshot_date)))
      ++ following.map
        (fun u => { user_id := user_id, snapshot_date := now, following := u }) }

/-! ## Order lemmas for the sort model -/

theorem lexLe_total : ∀ (a b : List Char), lexLe a b = true ∨ lexLe b a = true
  | [], _ => Or.inl rfl
  | _ :: _, [] => Or.inr rfl
  | x :: as, y :: bs => by
    simp only [lexLe]
    by_cases hxy : x = y
    · subst hxy
      simp only [if_pos rfl]
      exact lexLe_total as bs
    · rcases lt_or_gt_of_ne hxy with h | h
      · exact Or.inl (by rw [if_neg hxy]; exact decide_eq_true h)
      · refine Or.inr ?_
        rw [if_neg (Ne.symm hxy)]
        exact decide_eq_true h

theorem lexLe_trans : ∀ {a b c : List Char},
    lexLe a b = true → lexLe b c = true → lexLe a c = true
  | [], _, _, _, _ => rfl
  | _ :: _, [], _, h1, _ => by simp [lexLe] at h1
  | _ :: _, _ :: _, [], _, h2 => by simp [lexLe] at h2
  | x :: as, y :: bs, z :: cs, h1, h2 => by
    simp only [lexLe] at h1 h2 ⊢
    by_cases hxy : x = y
    · subst hxy
      rw [if_pos rfl] at h1
      by_cases hxz : x = z
      · subst hxz
        rw [if_pos rfl] at h2 ⊢
        exact lexLe_trans h1 h2
      · rw [if_neg hxz] at h2 ⊢
        exact h2
    · rw [if_neg hxy] at h1
      have hlt1 : x < y := of_decide_eq_true h1
      by_cases hyz : y = z
      · subst hyz
        rw [if_neg hxy]
        exact h1
      · rw [if_neg hyz] at h2
        have hlt2 : y < z := of_decide_eq_true h2
        have hlt : x < z := lt_trans hlt1 hlt2
        rw [if_neg (ne_of_lt hlt)]
        exact decide_eq_true hlt

theorem userLe_total (a b : InstagramUser) :
    userLe a b = true ∨ userLe b a = true :=
  lexLe_total (usernameKey a) (usernameKey b)

theorem userLe_trans {a b c : InstagramUser}
    (h1 : userLe a b = true) (h2 : userLe b c = true) : userLe a c = true :=
  lexLe_trans h1 h2

theorem mem_insertSorted {x z : InstagramUser} :
    ∀ {l : List InstagramUser}, z ∈ insertSorted x l ↔ z = x ∨ z ∈ l := by
  intro l
  induction l with
  | nil => simp [insertSorted]
  | cons y ys ih =>
    simp only [insertSorted]
    by_cases h : userLe x y = true
    · rw [if_pos h]
      constructor
      · intro hm
        rcases List.mem_cons.mp hm with rfl | hm'
        · exact Or.inl rfl
        · exact Or.inr hm'
      · intro hm
        rcases hm with rfl | hm'
        · exact List.mem_cons_self _ _
        · exact List.mem_cons_of_mem _ hm'
    · rw [if_neg h]
      constructor
      · intro hm
        rcases List.mem_cons.mp hm with rfl | hm'
        · exact Or.inr (List.mem_cons_self _ _)
        · rcases ih.mp hm' with rfl | hm''
          · exact Or.inl rfl
          · exact Or.inr (List.mem_cons_of_mem _ hm'')
      · intro hm
        rcases hm with rfl | hm'
        · exact List.mem_cons_of_mem _ (ih.mpr (Or.inl rfl))
        · rcases List.mem_cons.mp hm' with rfl | hm''
          · exact List.mem_cons_self _ _
          · exact List.mem_cons_of_mem _ (ih.mpr (Or.inr hm''))

theorem perm_insertSorted (x : InstagramUser) (l : List InstagramUser) :
    List.Perm (insertSorted x l) (x :: l) := by
  induction l with
  | nil => simp [insertSorted]
  | cons y ys ih =>
    simp only [insertSorted]
    by_cases h : userLe x y = true
    · rw [if_pos h]
    · rw [if_neg h]
      exact List.Perm.trans (List.Perm.cons y ih) (List.Perm.swap x y ys)

theorem perm_sortByUsername (l : List InstagramUser) :
    List.Perm (sortByUsername l) l := by
  induction l with
  | nil => exact List.Perm.refl []
  | cons x xs ih =>
    have h1 : List.Perm (insertSorted x (sortByUsername xs)) (x :: sortByUsername xs) :=
      perm_insertSorted x (sortByUsername xs)
    exact List.Perm.trans h1 (List.Perm.cons x ih)

/-- The order of the report lists: every element's lowercased username
key is at or below each later element's key. -/
def SortedByKey (l : List InstagramUser) : Prop :=
  List.Pairwise (fun a b => userLe a b = true) l

theorem pairwise_insertSorted (x : InstagramUser) {l : List InstagramUser}
    (h : SortedByKey l) : SortedByKey (insertSorted x l) := by
  induction l with
  | nil => simp [insertSorted, SortedByKey]
  | cons y ys ih =>
    rcases List.pairwise_cons.mp h with ⟨hy, hys⟩
    simp only [insertSorted]
    by_cases hxy : userLe x y = true
    · rw [if_pos hxy]
      refine List.pairwise_cons.mpr ⟨?_, h⟩
      intro z hz
      rcases List.mem_cons.mp hz with rfl | hz'
      · exact hxy
      · exact userLe_trans hxy (hy z hz')
    · rw [if_neg hxy]
      refine List.pairwise_cons.mpr ⟨?_, ih hys⟩
      intro z hz
      rcases mem_insertSorted.mp hz with hzx | hz'
      · subst hzx
        rcases userLe_total z y with ht | ht
        · exact absurd ht hxy
        · exact ht
      · exact hy z hz'

theorem pairwise_sortByUsername (l : List InstagramUser) :
    SortedByKey (sortByUsername l) := by
  induction l with
  | nil => exact List.Pairwise.nil
  | cons x xs ih => exact pairwise_insertSorted x ih

/-! ## Lemmas about the id-set and id-map models -/

theorem filter_comm_map {α β : Type} (f : α → β) (p : β → Bool) :
    ∀ l : List α, (l.map f).filter p = (l.filter (fun x => p (f x))).map f
  | [] => rfl
  | x :: xs => by
    have ih := filter_comm_map f p xs
    cases h : p (f x) <;> simp [List.filter_cons, h, ih]

theorem length_filter_add_length_filter_not {α : Type} (p : α → Bool) :
    ∀ l : List α,
      (l.filter p).length + (l.filter (fun x => !(p x))).length = l.length
  | [] => rfl
  | x :: xs => by
    have ih := length_filter_add_length_filter_not p xs
    cases h : p x <;> simp [List.filter_cons, h] <;> omega

theorem mapLookup_eq_self : ∀ {l : List InstagramUser},
    (l.map (fun u => u.ig_id)).Nodup → ∀ {u : InstagramUser}, u ∈ l →
    mapLookup l u.ig_id = some u := by
  intro l
  induction l with
  | nil => intro _ u hu; cases hu
  | cons v t ih =>
    intro hl u hu
    rw [List.map_cons, List.nodup_cons] at hl
    rcases hl with ⟨hv, ht⟩
    rcases List.mem_cons.mp hu with rfl | hut
    · unfold mapLookup
      rw [List.filter_cons_of_pos (by simp)]
      have hnil : t.filter (fun w => w.ig_id == u.ig_id) = [] := by
        apply List.filter_eq_nil_iff.mpr
        intro w hw
        simp only [beq_iff_eq]
        intro hEq
        exact hv (hEq ▸ List.mem_map_of_mem (fun z => z.ig_id) hw)
      rw [hnil]
      rfl
    · have hfalse : (v.ig_id == u.ig_id) = false := by
        simp only [beq_eq_false_iff_ne, ne_eq]
        intro hEq
        exact hv (hEq ▸ List.mem_map_of_mem (fun z => z.ig_id) hut)
      unfold mapLookup
      simp only [List.filter_cons, hfalse, if_false]
      exact ih ht hut

theorem filterMap_eq_self_of_all {f : InstagramUser → Option InstagramUser} :
    ∀ {l : List InstagramUser}, (∀ u ∈ l, f u = some u) → l.filterMap f = l := by
  intro l
  induction l with
  | nil => intro _; rfl
  | cons x xs ih =>
    intro h
    simp only [List.filterMap_cons, h x (List.mem_cons_self x xs)]
    rw [ih (fun u hu => h u (List.mem_cons_of_mem x hu))]

theorem gather_filter_ids (L : List InstagramUser) (p : String → Bool)
    (hL : (L.map (fun u => u.ig_id)).Nodup) :
    gather L ((idSet L).filter p) = L.filter (fun u => p u.ig_id) := by
  unfold gather idSet
  rw [List.Nodup.dedup hL]
  rw [filter_comm_map (fun u => u.ig_id) p L]
  rw [List.filterMap_map]
  apply filterMap_eq_self_of_all
  intro u hu
  exact mapLookup_eq_self hL (List.mem_of_mem_filter hu)

theorem length_filter_contains_eq_card_inter {a b : List String}
    (ha : a.Nodup) :
    (a.filter (fun x => b.contains x)).length =
      (a.toFinset ∩ b.toFinset).card := by
  classical
  rw [← List.toFinset_card_of_nodup (List.Nodup.filter _ ha)]
  congr 1
  ext x
  simp [List.mem_filter, Finset.mem_inter]

theorem length_filter_mem_comm {a b : List String}
    (ha : a.Nodup) (hb : b.Nodup) :
    (a.filter (fun x => b.contains x)).length =
      (b.filter (fun x => a.contains x)).length := by
  rw [length_filter_contains_eq_card_inter ha,
      length_filter_contains_eq_card_inter hb, Finset.inter_comm]

theorem length_filter_contains_split (m : List String) (b : List String) :
    (m.filter (fun x => !(b.contains x))).length +
      (m.filter (fun x => b.contains x)).length = m.length := by
  induction m with
  | nil => rfl
  | cons x t ih =>
    by_cases h : x ∈ b <;>
      simp [List.filter_cons, h] at ih ⊢ <;> omega

theorem length_filter_on_ids (L : List InstagramUser) (p : String → Bool) :
    (L.filter (fun u => p u.ig_id)).length =
      ((L.map (fun u => u.ig_id)).filter p).length := by
  rw [filter_comm_map (fun u => u.ig_id) p L, List.length_map]

/-! ## Claims about the analytics engine -/

/-- C1: with ids unique within each input list, compute_analytics
returns not_following_back as the following-list entities whose id is
absent from the follower id-set, not_followed_back as the
follower-list entities whose id is absent from the following id-set,
mutual_friends as the follower-list entities whose id is in both
id-sets, with the two cardinality identities. The report lists are
re-sorted for display, so content equality is stated as permutation. -/
theorem compute_analytics_set_algebra
    (followers following : List InstagramUser)
    (previous_followers : Option (List InstagramUser))
    (hF : (followers.map (fun u => u.ig_id)).Nodup)
    (hG : (following.map (fun u => u.ig_id)).Nodup) :
    List.Perm
      ((compute_analytics followers following previous_followers).not_following_back)
      (following.filter
        (fun u => !((followers.map (fun v => v.ig_id)).contains u.ig_id))) ∧
    List.Perm
      ((compute_analytics followers following previous_followers).not_followed_back)
      (followers.filter
        (fun u => !((following.map (fun v => v.ig_id)).contains u.ig_id))) ∧
    List.Perm
      ((compute_analytics followers following previous_followers).mutual_friends)
      (followers.filter
        (fun u => (following.map (fun v => v.ig_id)).contains u.ig_id)) ∧
    ((compute_analytics followers following previous_followers).not_following_back.length +
      (compute_analytics followers following previous_followers).mutual_friends.length =
      following.length) ∧
    ((compute_analytics followers following previous_followers).not_followed_back.length +
      (compute_analytics followers following previous_followers).mutual_friends.length =
      followers.length) := by
  have hFid : idSet followers = followers.map (fun u => u.ig_id) := by
    unfold idSet
    exact List.Nodup.dedup hF
  have hGid : idSet following = following.map (fun u => u.ig_id) := by
    unfold idSet
    exact List.Nodup.dedup hG
  have p1 : List.Perm
      ((compute_analytics followers following previous_followers).not_following_back)
      (following.filter
        (fun u => !((followers.map (fun v => v.ig_id)).contains u.ig_id))) := by
    show List.Perm
      (sortByUsername (gather following
        ((idSet following).filter (fun x => !((idSet followers).contains x))))) _
    rw [gather_filter_ids following (fun x => !((idSet followers).contains x)) hG]
    simp only [hFid]
    exact perm_sortByUsername _
  have p2 : List.Perm
      ((compute_analytics followers following previous_followers).not_followed_back)
      (followers.filter
        (fun u => !((following.map (fun v => v.ig_id)).contains u.ig_id))) := by
    show List.Perm
      (sortByUsername (gather followers
        ((idSet followers).filter (fun x => !((idSet following).contains x))))) _
    rw [gather_filter_ids followers (fun x => !((idSet following).contains x)) hF]
    simp only [hGid]
    exact perm_sortByUsername _
  have p3 : List.Perm
      ((compute_analytics followers following previous_followers).mutual_friends)
      (followers.filter
        (fun u => (following.map (fun v => v.ig_id)).contains u.ig_id)) := by
    show List.Perm
      (sortByUsername (gather followers
        ((idSet followers).filter (fun x => (idSet following).contains x)))) _
    rw [gather_filter_ids followers (fun x => (idSet following).contains x) hF]
    simp only [hGid]
    exact perm_sortByUsername _
  refine ⟨p1, p2, p3, ?_, ?_⟩
  · rw [p1.length_eq, p3.length_eq]
    rw [length_filter_on_ids following
        (fun x => !((followers.map (fun v => v.ig_id)).contains x))]
    rw [length_filter_on_ids followers
        (fun x => (following.map (fun v => v.ig_id)).contains x)]
    rw [length_filter_mem_comm hF hG]
    have hsplit := length_filter_contains_split
      (following.map (fun v => v.ig_id)) (followers.map (fun v => v.ig_id))
    rw [List.length_map] at hsplit
    exact hsplit
  · rw [p2.length_eq, p3.length_eq]
    rw [length_filter_on_ids followers
        (fun x => !((following.map (fun v => v.ig_id)).contains x))]
    rw [length_filter_on_ids followers
        (fun x => (following.map (fun v => v.ig_id)).contains x)]
    have hsplit := length_filter_contains_split
      (followers.map (fun v => v.ig_id)) (following.map (fun v => v.ig_id))
    rw [List.length_map] at hsplit
    exact hsplit

/-- Witness for compute_analytics_set_algebra at the spec example
F = (alice, bob, carol), G = (bob, carol, dave). -/
theorem compute_analytics_set_algebra_witness :
    List.Perm
      ((compute_analytics
        [{ ig_id := "1", username := "alice" }, { ig_id := "2", username := "bob" },
         { ig_id := "3", username := "carol" }]
        [{ ig_id := "2", username := "bob" }, { ig_id := "3", username := "carol" },
         { ig_id := "4", username := "dave" }]
        none).not_following_back)
      (([{ ig_id := "2", username := "bob" }, { ig_id := "3", username := "carol" },
         { ig_id := "4", username := "dave" }] : List InstagramUser).filter
        (fun u => !((([{ ig_id := "1", username := "alice" },
          { ig_id := "2", username := "bob" },
          { ig_id := "3", username := "carol" }] : List InstagramUser).map
            (fun v => v.ig_id)).contains u.ig_id))) ∧
    List.Perm
      ((compute_analytics
        [{ ig_id := "1", username := "alice" }, { ig_id := "2", username := "bob" },
         { ig_id := "3", username := "carol" }]
        [{ ig_id := "2", username := "bob" }, { ig_id := "3", username := "carol" },
         { ig_id := "4", username := "dave" }]
        none).not_followed_back)
      (([{ ig_id := "1", username := "alice" }, { ig_id := "2", username := "bob" },
         { ig_id := "3", username := "carol" }] : List InstagramUser).filter
        (fun u => !((([{ ig_id := "2", username := "bob" },
          { ig_id := "3", username := "carol" },
          { ig_id := "4", username := "dave" }] : List InstagramUser).map
            (fun v => v.ig_id)).contains u.ig_id))) ∧
    List.Perm
      ((compute_analytics
        [{ ig_id := "1", username := "alice" }, { ig_id := "2", username := "bob" },
         { ig_id := "3", username := "carol" }]
        [{ ig_id := "2", username := "bob" }, { ig_id := "3", username := "carol" },
         { ig_id := "4", username := "dave" }]
        none).mutual_friends)
      (([{ ig_id := "1", username := "alice" }, { ig_id := "2", username := "bob" },
         { ig_id := "3", username := "carol" }] : List InstagramUser).filter
        (fun u => (([{ ig_id := "2", username := "bob" },
          { ig_id := "3", username := "carol" },
          { ig_id := "4", username := "dave" }] : List InstagramUser).map
            (fun v => v.ig_id)).contains u.ig_id)) ∧
    ((compute_analytics
        [{ ig_id := "1", username := "alice" }, { ig_id := "2", username := "bob" },
         { ig_id := "3", username := "carol" }]
        [{ ig_id := "2", username := "bob" }, { ig_id := "3", username := "carol" },
         { ig_id := "4", username := "dave" }]
        none).not_following_back.length +
      (compute_analytics
        [{ ig_id := "1", username := "alice" }, { ig_id := "2", username := "bob" },
         { ig_id := "3", username := "carol" }]
        [{ ig_id := "2", username := "bob" }, { ig_id := "3", username := "carol" },
         { ig_id := "4", username := "dave" }]
        none).mutual_friends.length =
      ([{ ig_id := "2", username := "bob" }, { ig_id := "3", username := "carol" },
        { ig_id := "4", username := "dave" }] : List InstagramUser).length) ∧
    ((compute_analytics
        [{ ig_id := "1", username := "alice" }, { ig_id := "2", username := "bob" },
         { ig_id := "3", username := "carol" }]
        [{ ig_id := "2", username := "bob" }, { ig_id := "3", username := "carol" },
         { ig_id := "4", username := "dave" }]
        none).not_followed_back.length +
      (compute_analytics
        [{ ig_id := "1", username := "alice" }, { ig_id := "2", username := "bob" },
         { ig_id := "3", username := "carol" }]
        [{ ig_id := "2", username := "bob" }, { ig_id := "3", username := "carol" },
         { ig_id := "4", username := "dave" }]
        none).mutual_friends.length =
      ([{ ig_id := "1", username := "alice" }, { ig_id := "2", username := "bob" },
        { ig_id := "3", username := "carol" }] : List InstagramUser).length) :=
  compute_analytics_set_algebra
    [{ ig_id := "1", username := "alice" }, { ig_id := "2", username := "bob" },
     { ig_id := "3", username := "carol" }]
    [{ ig_id := "2", username := "bob" }, { ig_id := "3", username := "carol" },
     { ig_id := "4", username := "dave" }]
    none (by decide) (by decide)

/-- C2 (amended): every report list except new and lost followers is
sorted ascending by case-insensitive username. The source applies no id
tie-break: Python's sorted is stable and compares only the lowercased
username key, as the counterexample shows. -/
theorem compute_analytics_sorted_by_lower_username
    (followers following : List InstagramUser)
    (previous_followers : Option (List InstagramUser)) :
    SortedByKey ((compute_analytics followers following previous_followers).followers) ∧
    SortedByKey ((compute_analytics followers following previous_followers).following) ∧
    SortedByKey
      ((compute_analytics followers following previous_followers).not_following_back) ∧
    SortedByKey
      ((compute_analytics followers following previous_followers).not_followed_back) ∧
    SortedByKey
      ((compute_analytics followers following previous_followers).mutual_friends) :=
  ⟨pairwise_sortByUsername _, pairwise_sortByUsername _, pairwise_sortByUsername _,
   pairwise_sortByUsername _, pairwise_sortByUsername _⟩

/-- C2 counterexample: followers with usernames A and a (equal
case-insensitively) and ids 2 and 1, in that input order. The followers
output keeps the input order (stable sort on the username key only),
with id 2 before id 1, although the claimed id-ascending tie-break
would put id 1 first. -/
theorem compute_analytics_no_id_tiebreak_counterexample :
    (compute_analytics
      [{ ig_id := "2", username := "A" }, { ig_id := "1", username := "a" }]
      [] none).followers =
      [{ ig_id := "2", username := "A" }, { ig_id := "1", username := "a" }] ∧
    usernameKey { ig_id := "2", username := "A" } =
      usernameKey { ig_id := "1", username := "a" } ∧
    ({ ig_id := "2", username := "A" } : InstagramUser).ig_id ≠
      ({ ig_id := "1", username := "a" } : InstagramUser).ig_id ∧
    lexLe (("1" : String).data) (("2" : String).data) = true ∧
    lexLe (("2" : String).data) (("1" : String).data) = false := by decide

/-- C10: supplying previous_followers as an explicit empty list takes
the falsy branch of the if previous_followers: test, exactly like
passing none, so new_followers and lost_followers are both empty and
the whole report coincides with the no-previous-list report. -/
theorem compute_analytics_empty_previous
    (followers following : List InstagramUser) :
    compute_analytics followers following (some []) =
      compute_analytics followers following none ∧
    (compute_analytics followers following (some [])).new_followers = [] ∧
    (compute_analytics followers following (some [])).lost_followers = [] :=
  ⟨rfl, rfl, rfl⟩

/-! ## Claims about auth challenge completion -/

/-- C3 counterexample: a table holding a token of kind 2fa created at
time 0; at time 661 its age exceeds the 10-minute TTL, yet complete_2fa
with the matching kind proceeds to a successful login (no TTL check
exists on the completion path), and complete_challenge on the same
token answers invalid-challenge-type, not session-expired. -/
theorem completion_stale_and_mismatch_counterexample :
    (661 - ({ kind := ChallengeKind.twoFactor, created_at := 0 } : AuthChallenge).created_at
      > CHALLENGE_EXPIRY_MINUTES * 60) ∧
    (complete_2fa [("tok", { kind := ChallengeKind.twoFactor, created_at := 0 })]
      ("tok") true).1 = CompletionResult.ok ∧
    (complete_challenge [("tok", { kind := ChallengeKind.twoFactor, created_at := 0 })]
      ("tok") ResolveOutcome.ok).1 = CompletionResult.invalidChallengeType := by
  decide

/-- C3 (amended): a session token absent from the challenge table makes
both completion operations return the session-expired failure, leaving
the table untouched and never crashing (the embeddings are total); a
present token of mismatching kind returns the invalid-challenge-type
failure instead. No TTL check happens at completion time: expiry
eviction only runs inside login via cleanup_expired_challenges. -/
theorem completion_absent_token_session_expired
    (table : List (String × AuthChallenge)) (tok : String)
    (loginOk : Bool) (resolve : ResolveOutcome) :
    (lookupChallenge table tok = none →
      (complete_2fa table tok loginOk).1 = CompletionResult.sessionExpired ∧
      (complete_2fa table tok loginOk).2 = table ∧
      (complete_challenge table tok resolve).1 = CompletionResult.sessionExpired ∧
      (complete_challenge table tok resolve).2 = table) ∧
    (∀ cd : AuthChallenge, lookupChallenge table tok = some cd →
      (cd.kind ≠ ChallengeKind.twoFactor →
        (complete_2fa table tok loginOk).1 = CompletionResult.invalidChallengeType) ∧
      (cd.kind ≠ ChallengeKind.verificationChallenge →
        (complete_challenge table tok resolve).1 =
          CompletionResult.invalidChallengeType)) := by
  constructor
  · intro h
    refine ⟨?_, ?_, ?_, ?_⟩ <;> simp [complete_2fa, complete_challenge, h]
  · intro cd hcd
    constructor
    · intro hk
      simp [complete_2fa, hcd, hk]
    · intro hk
      simp [complete_challenge, hcd, hk]

/-- Witness for completion_absent_token_session_expired on an empty
table and on a single-entry table of mismatching kind. -/
theorem completion_absent_token_session_expired_witness :
    (complete_2fa [] ("t") true).1 = CompletionResult.sessionExpired ∧
    (complete_challenge
      [("t", { kind := ChallengeKind.twoFactor, created_at := 0 })]
      ("t") ResolveOutcome.ok).1 = CompletionResult.invalidChallengeType :=
  ⟨((completion_absent_token_session_expired [] ("t") true ResolveOutcome.ok).1 rfl).1,
   (((completion_absent_token_session_expired
      [("t", { kind := ChallengeKind.twoFactor, created_at := 0 })]
      ("t") true ResolveOutcome.ok).2
      { kind := ChallengeKind.twoFactor, created_at := 0 } (by decide)).2 (by decide))⟩

/-! ## Claims about the rate limiter -/

/-- C7 counterexample: one recorded request at timestamp 0, now 60,
window 60 seconds, limit 1. The entry sits exactly at now minus the
window, so it is not older than that bound, yet the code prunes it
(strict comparison ts greater than window start) and admits the
request; the prune rule as claimed would keep the boundary entry, reach
the limit, and reject. -/
theorem check_rate_limit_boundary_counterexample :
    check_rate_limit [(0, 1)] 60 1 60 = (RateLimitOutcome.allowed, [(60, 1)]) ∧
    keptPerClaim [(0, 1)] 60 60 = [(0, 1)] ∧
    ((keptPerClaim [(0, 1)] 60 60).map (fun e => e.2)).sum ≥ 1 := by
  decide

/-- C7 (amended): check_rate_limit prunes the entries whose timestamp
is at or before now minus window_seconds (keeping exactly the strictly
newer ones), sums the remaining counts, and when the sum reaches
max_requests it rejects with retry-after computed from the first
retained entry, which is the oldest since entry lists are kept in
nondecreasing timestamp order, without recording the request;
otherwise it appends (now, 1) and allows. -/
theorem check_rate_limit_sliding_window
    (entries : List (Int × Nat)) (now : Int)
    (max_requests window_seconds : Nat) (K : List (Int × Nat))
    (hmax : 0 < max_requests)
    (hsorted : entries.Pairwise (fun a b => a.1 ≤ b.1))
    (hK : K = entries.filter (fun e => decide (now - (window_seconds : Int) < e.1))) :
    ((K.map (fun e => e.2)).sum ≥ max_requests →
      check_rate_limit entries now max_requests window_seconds =
        (RateLimitOutcome.rejected
          ((K.headD (0, 0)).1 + (window_seconds : Int) - now), K) ∧
      K ≠ [] ∧ (∀ f ∈ K, (K.headD (0, 0)).1 ≤ f.1)) ∧
    ((K.map (fun e => e.2)).sum < max_requests →
      check_rate_limit entries now max_requests window_seconds =
        (RateLimitOutcome.allowed, K ++ [(now, 1)])) := by
  have hpf : K.Pairwise (fun a b => a.1 ≤ b.1) := by
    rw [hK]
    exact List.Pairwise.filter _ hsorted
  constructor
  · intro hge
    have hne : K ≠ [] := by
      intro h0
      rw [h0] at hge
      simp at hge
      omega
    cases hKc : K with
    | nil => exact absurd hKc hne
    | cons e rest =>
      refine ⟨?_, by simp, ?_⟩
      · simp only [check_rate_limit]
        rw [← hK, hKc]
        rw [if_pos (hKc ▸ hge)]
        rfl
      · rw [hKc] at hpf
        intro f hf
        rcases List.mem_cons.mp hf with rfl | hf'
        · exact le_refl _
        · exact (List.pairwise_cons.mp hpf).1 f hf'
  · intro hlt
    simp only [check_rate_limit]
    rw [← hK]
    rw [if_neg (by omega)]

/-- Witness for check_rate_limit_sliding_window: two requests of one
unit at times 5 and 8, now 10, window 60, limit 2: both entries are
retained, the sum reaches the limit, and the call rejects with
retry-after 55 computed from the oldest entry, recording nothing. -/
theorem check_rate_limit_sliding_window_witness :
    check_rate_limit [(5, 1), (8, 1)] 10 2 60 =
      (RateLimitOutcome.rejected 55, [(5, 1), (8, 1)]) ∧
    check_rate_limit [(5, 1), (8, 1)] 10 3 60 =
      (RateLimitOutcome.allowed, [(5, 1), (8, 1), (10, 1)]) :=
  ⟨(((check_rate_limit_sliding_window [(5, 1), (8, 1)] 10 2 60
      [(5, 1), (8, 1)] (by decide) (by decide) (by decide)).1 (by decide)).1),
   ((check_rate_limit_sliding_window [(5, 1), (8, 1)] 10 3 60
      [(5, 1), (8, 1)] (by decide) (by decide) (by decide)).2 (by decide))⟩

/-! ## Claims about the sync cooldown -/

/-- C8: can_sync with no previous sync always allows; it allows once
now has reached last_sync plus the cooldown; and at last_sync = now
with a positive cooldown it denies with exactly the cooldown in
seconds remaining. -/
theorem can_sync_cooldown_spec (now : Int) (cooldown_hours : Nat)
    (hpos : 0 < cooldown_hours) :
    can_sync none now cooldown_hours = (true, none) ∧
    (∀ ls : Int, ls + (cooldown_hours : Int) * 3600 ≤ now →
      can_sync (some ls) now cooldown_hours = (true, none)) ∧
    can_sync (some now) now cooldown_hours =
      (false, some ((cooldown_hours : Int) * 3600)) := by
  refine ⟨rfl, ?_, ?_⟩
  · intro ls h
    simp only [can_sync]
    rw [if_pos h]
  · simp only [can_sync]
    rw [if_neg (by omega)]
    rw [add_sub_cancel_left]

/-- Witness for can_sync_cooldown_spec with a 24-hour cooldown at
now = 0: no previous sync allows, a sync 86400 seconds in the past
allows, and a sync right now denies with 86400 seconds remaining. -/
theorem can_sync_cooldown_spec_witness :
    can_sync none 0 24 = (true, none) ∧
    can_sync (some (-86400)) 0 24 = (true, none) ∧
    can_sync (some 0) 0 24 = (false, some 86400) :=
  ⟨(can_sync_cooldown_spec 0 24 (by decide)).1,
   (can_sync_cooldown_spec 0 24 (by decide)).2.1 (-86400) (by decide),
   (can_sync_cooldown_spec 0 24 (by decide)).2.2⟩

/-! ## Claims about the snapshot store -/

/-- C9 counterexample: a snapshot row of user 1 captured earlier the
same day (time 100) is gone after save_snapshot at time 200: the code
deletes the user's same-day rows before inserting, so the history is
not append-only. -/
theorem save_snapshot_deletes_same_day_counterexample :
    ({ user_id := 1
       snapshot_date := 100
       follower := { ig_id := "9", username := "zoe" } } : FollowerRow) ∈
      ({ follower_rows :=
           [{ user_id := 1
              snapshot_date := 100
              follower := { ig_id := "9", username := "zoe" } }]
         following_rows := [] } : SnapshotDB).follower_rows ∧
    ({ user_id := 1
       snapshot_date := 100
       follower := { ig_id := "9", username := "zoe" } } : FollowerRow) ∉
      (save_snapshot
        { follower_rows :=
            [{ user_id := 1
               snapshot_date := 100
               follower := { ig_id := "9", username := "zoe" } }]
          following_rows := [] } 1 200 [] []).follower_rows := by
  decide

/-- C9 (amended): save_snapshot preserves every previously persisted
row that belongs to a different user or was captured before the start
of the current UTC day; same-user rows captured on the same day are
deleted and replaced by the new capture. -/
theorem save_snapshot_preserves_prior_days
    (db : SnapshotDB) (user_id : Nat) (now : Nat)
    (followers following : List InstagramUser) :
    (∀ r : FollowerRow, r ∈ db.follower_rows →
      (r.user_id ≠ user_id ∨ r.snapshot_date < dayStart now) →
      r ∈ (save_snapshot db user_id now followers following).follower_rows) ∧
    (∀ r : FollowingRow, r ∈ db.following_rows →
      (r.user_id ≠ user_id ∨ r.snapshot_date < dayStart now) →
      r ∈ (save_snapshot db user_id now followers following).following_rows) := by
  constructor <;>
  · intro r hr hcond
    unfold save_snapshot
    apply List.mem_append_left
    apply List.mem_filter.mpr
    refine ⟨hr, ?_⟩
    rcases hcond with h | h
    · simp [h]
    · have hnot : ¬ (dayStart now ≤ r.snapshot_date) := Nat.not_le.mpr h
      simp [hnot]

/-- Witness for save_snapshot_preserves_prior_days: a row of another
user (user 2) captured the same day survives a save for user 1. -/
theorem save_snapshot_preserves_prior_days_witness :
    ({ user_id := 2
       snapshot_date := 100
       follower := { ig_id := "9", username := "zoe" } } : FollowerRow) ∈
      (save_snapshot
        { follower_rows :=
            [{ user_id := 2
               snapshot_date := 100
               follower := { ig_id := "9", username := "zoe" } }]
          following_rows := [] } 1 200 [] []).follower_rows :=
  (save_snapshot_preserves_prior_days
    { follower_rows :=
        [{ user_id := 2
           snapshot_date := 100
           follower := { ig_id := "9", username := "zoe" } }]
      following_rows := [] } 1 200 [] []).1
    { user_id := 2
      snapshot_date := 100
      follower := { ig_id := "9", username := "zoe" } }
    (by decide) (Or.inl (by decide))

/-! ## Claims about the sync endpoint guard -/

/-- C6: when the registry already holds a record with is_syncing true
for this account, and the cooldown guard does not fire first (force,
or cooldown passed), the sync request is answered with the structured
already-in-progress rejection (success false) carrying the existing
status record, the registry is unchanged, and no background task is
spawned: at most one sync per account runs at a time. -/
theorem sync_analytics_in_progress_guard
    (reg : List (String × SyncStatus)) (status_key : String) (force : Bool)
    (last_sync : Option Int) (now : Int) (cooldown_hours : Nat)
    (st : SyncStatus)
    (hlu : lookupStatus reg status_key = some st)
    (hsync : st.is_syncing = true)
    (hcool : force = true ∨ (can_sync last_sync now cooldown_hours).1 = true) :
    sync_analytics reg status_key force last_sync now cooldown_hours =
      (SyncResponse.alreadyInProgress st, reg, false) := by
  have hguard : ¬ (force = false ∧ (can_sync last_sync now cooldown_hours).1 = false) := by
    rcases hcool with h | h <;> simp [h]
  simp only [sync_analytics]
  rw [if_neg hguard, hlu]
  simp [hsync]

/-- Witness for sync_analytics_in_progress_guard: a one-entry registry
whose record is mid-sync; the forced request is rejected with that
record, the registry kept, no task spawned. -/
theorem sync_analytics_in_progress_guard_witness :
    sync_analytics
      [("sync_1", { is_syncing := true, progress := 0, current_task := "Starting sync..." })]
      ("sync_1") true none 0 0 =
      (SyncResponse.alreadyInProgress
        { is_syncing := true, progress := 0, current_task := "Starting sync..." },
       [("sync_1", { is_syncing := true, progress := 0, current_task := "Starting sync..." })],
       false) :=
  sync_analytics_in_progress_guard
    [("sync_1", { is_syncing := true, progress := 0, current_task := "Starting sync..." })]
    ("sync_1") true none 0 0
    { is_syncing := true, progress := 0, current_task := "Starting sync..." }
    (by decide) (by decide) (Or.inl rfl)

/-! ## Claims about the background sync run -/

theorem syncTail_not_syncing (env : SyncEnv) (st : SyncStatus) (now : Int)
    (followers following : List InstagramUser) :
    (syncTail env st now followers following).1.is_syncing = false := by
  simp only [syncTail, syncUnexpected]
  split
  · rfl
  · split
    · rfl
    · split
      · rfl
      · split
        · rfl
        · rfl

theorem syncFollowingStep_not_syncing (env : SyncEnv) (st : SyncStatus)
    (now : Int) (followers : List InstagramUser) :
    (syncFollowingStep env st now followers).1.is_syncing = false := by
  simp only [syncFollowingStep]
  cases env.fetch_following with
  | rateLimited msg => rfl
  | ok l => exact syncTail_not_syncing _ _ _ _ _
  | otherError => exact syncTail_not_syncing _ _ _ _ _

/-- C5: every run of the background sync sequence ends with is_syncing
false in the status record, whichever exit is taken: session-decrypt
failure, either session-load failure, validation failure, rate-limit
abort on either fetch, persistence failures caught by the final except
handler, the failure of the post-completion user-row fetch, or
success. -/
theorem perform_sync_terminal_not_syncing
    (env : SyncEnv) (st0 : SyncStatus) (now : Int) :
    (perform_sync env st0 now).1.is_syncing = false := by
  simp only [perform_sync, syncUnexpected]
  split
  · rfl
  · split
    · rfl
    · split
      · rfl
      · split
        · rfl
        · split
          · rfl
          · cases env.fetch_followers with
            | rateLimited msg => rfl
            | ok l => exact syncFollowingStep_not_syncing _ _ _ _
            | otherError => exact syncFollowingStep_not_syncing _ _ _ _

/-- C4: under a run that reaches the fetch stage (decrypt, both loads,
validation and previous-snapshot read succeed): a rate-limited
followers fetch, or a rate-limited following fetch, aborts immediately
with is_syncing false and the rate-limit message as current_task,
persisting neither snapshot nor analytics; while a non-rate-limit fetch
failure on either side degrades that side to the empty list and the
run completes (given the persistence steps succeed) with is_syncing
false, progress 100, the completion label, and the degraded snapshot
and analytics persisted. -/
theorem perform_sync_partial_failure_policy
    (env : SyncEnv) (st0 : SyncStatus) (now : Int)
    (hd : env.decrypt_ok = true) (h1 : env.load1_ok = true)
    (h2 : env.load2_ok = true) (hv : env.validate_ok = true)
    (hp : env.prev_ok = true) :
    (∀ msg, env.fetch_followers = FetchResult.rateLimited msg →
      (perform_sync env st0 now).1.is_syncing = false ∧
      (perform_sync env st0 now).1.current_task = msg ∧
      (perform_sync env st0 now).2 = ({} : SyncEffects)) ∧
    (∀ msg, (∀ m, env.fetch_followers ≠ FetchResult.rateLimited m) →
      env.fetch_following = FetchResult.rateLimited msg →
      (perform_sync env st0 now).1.is_syncing = false ∧
      (perform_sync env st0 now).1.current_task = msg ∧
      (perform_sync env st0 now).2 = ({} : SyncEffects)) ∧
    (∀ l, env.fetch_followers = FetchResult.otherError →
      env.fetch_following = FetchResult.ok l →
      env.save_ok = true → env.cache_ok = true → env.update_ok = true →
      env.userrow_ok = true →
      (perform_sync env st0 now).1.is_syncing = false ∧
      (perform_sync env st0 now).1.progress = 100 ∧
      (perform_sync env st0 now).1.current_task = "Sync complete!" ∧
      (perform_sync env st0 now).2.saved_snapshot = some ([], l) ∧
      (perform_sync env st0 now).2.cached_analytics =
        some (compute_analytics [] l env.prev) ∧
      (perform_sync env st0 now).2.last_sync_updated = true) ∧
    (env.fetch_followers = FetchResult.otherError →
      env.fetch_following = FetchResult.otherError →
      env.save_ok = true → env.cache_ok = true → env.update_ok = true →
      env.userrow_ok = true →
      (perform_sync env st0 now).1.is_syncing = false ∧
      (perform_sync env st0 now).1.progress = 100 ∧
      (perform_sync env st0 now).1.current_task = "Sync complete!" ∧
      (perform_sync env st0 now).2.saved_snapshot = some ([], []) ∧
      (perform_sync env st0 now).2.cached_analytics =
        some (compute_analytics [] [] env.prev) ∧
      (perform_sync env st0 now).2.last_sync_updated = true) ∧
    (∀ l, env.fetch_followers = FetchResult.ok l →
      env.fetch_following = FetchResult.otherError →
      env.save_ok = true → env.cache_ok = true → env.update_ok = true →
      env.userrow_ok = true →
      (perform_sync env st0 now).1.is_syncing = false ∧
      (perform_sync env st0 now).1.progress = 100 ∧
      (perform_sync env st0 now).1.current_task = "Sync complete!" ∧
      (perform_sync env st0 now).2.saved_snapshot = some (l, []) ∧
      (perform_sync env st0 now).2.cached_analytics =
        some (compute_analytics l [] env.prev) ∧
      (perform_sync env st0 now).2.last_sync_updated = true) := by
  refine ⟨?_, ?_, ?_, ?_, ?_⟩
  · intro msg hff
    refine ⟨?_, ?_, ?_⟩ <;>
      simp [perform_sync, hd, h1, h2, hv, hp, hff]
  · intro msg hnot hfg
    cases hff : env.fetch_followers with
    | rateLimited m => exact absurd hff (hnot m)
    | ok l =>
      refine ⟨?_, ?_, ?_⟩ <;>
        simp [perform_sync, syncFollowingStep, hd, h1, h2, hv, hp, hff, hfg]
    | otherError =>
      refine ⟨?_, ?_, ?_⟩ <;>
        simp [perform_sync, syncFollowingStep, hd, h1, h2, hv, hp, hff, hfg]
  · intro l hff hfg hs hc hu hw
    refine ⟨?_, ?_, ?_, ?_, ?_, ?_⟩ <;>
      simp [perform_sync, syncFollowingStep, syncTail, hd, h1, h2, hv, hp,
        hff, hfg, hs, hc, hu, hw]
  · intro hff hfg hs hc hu hw
    refine ⟨?_, ?_, ?_, ?_, ?_, ?_⟩ <;>
      simp [perform_sync, syncFollowingStep, syncTail, hd, h1, h2, hv, hp,
        hff, hfg, hs, hc, hu, hw]
  · intro l hff hfg hs hc hu hw
    refine ⟨?_, ?_, ?_, ?_, ?_, ?_⟩ <;>
      simp [perform_sync, syncFollowingStep, syncTail, hd, h1, h2, hv, hp,
        hff, hfg, hs, hc, hu, hw]

/-- Witness for perform_sync_partial_failure_policy: a run whose
followers fetch hits the remote rate limit aborts with is_syncing
false, that message in current_task, and no persisted effects. -/
theorem perform_sync_partial_failure_policy_witness :
    (perform_sync
      { decrypt_ok := true
        load1_ok := true
        load2_ok := true
        validate_ok := true
        prev_ok := true
        prev := none
        fetch_followers := FetchResult.rateLimited ("rate limited")
        fetch_following := FetchResult.ok []
        save_ok := true
        cache_ok := true
        update_ok := true
        userrow_ok := true }
      { is_syncing := true, progress := 0, current_task := "Starting sync..." }
      0).1.is_syncing = false ∧
    (perform_sync
      { decrypt_ok := true
        load1_ok := true
        load2_ok := true
        validate_ok := true
        prev_ok := true
        prev := none
        fetch_followers := FetchResult.rateLimited ("rate limited")
        fetch_following := FetchResult.ok []
        save_ok := true
        cache_ok := true
        update_ok := true
        userrow_ok := true }
      { is_syncing := true, progress := 0, current_task := "Starting sync..." }
      0).1.current_task = "rate limited" ∧
    (perform_sync
      { decrypt_ok := true
        load1_ok := true
        load2_ok := true
        validate_ok := true
        prev_ok := true
        prev := none
        fetch_followers := FetchResult.rateLimited ("rate limited")
        fetch_following := FetchResult.ok []
        save_ok := true
        cache_ok := true
        update_ok := true
        userrow_ok := true }
      { is_syncing := true, progress := 0, current_task := "Starting sync..." }
      0).2 = ({} : SyncEffects) :=
  (perform_sync_partial_failure_policy
    { decrypt_ok := true
      load1_ok := true
      load2_ok := true
      validate_ok := true
      prev_ok := true
      prev := none
      fetch_followers := FetchResult.rateLimited ("rate limited")
      fetch_following := FetchResult.ok []
      save_ok := true
      cache_ok := true
      update_ok := true
      userrow_ok := true }
    { is_syncing := true, progress := 0, current_task := "Starting sync..." }
    0 rfl rfl rfl rfl rfl).1 ("rate limited") rfl
